import Mathlib

/-!
Verification of the procedural ribbon engine of ourfeelings.art.

The definitions below are a shallow embedding of the TypeScript source:
JavaScript numbers are modelled as real numbers (`ℝ`) with exact decimal
literals, `Math.pow (x, 0.7)` as the real power `x ^ (0.7 : ℝ)`,
`Math.floor`/`Math.ceil` as `Int.floor`/`Int.ceil`, and the JS remainder
operator `%` (truncated division) as `jsMod`.  The FPS admission
controller works on integer ribbon counts and rational FPS averages and
is embedded computably over `ℚ` and `ℕ`.
-/

namespace OurFeelings

noncomputable section

open Real

/-! ## Shared numeric helpers (JS semantics) -/

/-- JS `Math.trunc` / the implicit truncation of the `%` operator:
round toward zero. -/
def jsTrunc (x : ℝ) : ℤ := if x < 0 then ⌈x⌉ else ⌊x⌋

/-- JS remainder operator `a % b` (sign of the dividend, truncated division). -/
def jsMod (a b : ℝ) : ℝ := a - b * jsTrunc (a / b)

/-- JS `Math.round`: round half toward positive infinity. -/
def jsRound (x : ℝ) : ℤ := ⌊x + 1 / 2⌋

theorem jsTrunc_of_nonneg {x : ℝ} (h : 0 ≤ x) : jsTrunc x = ⌊x⌋ := by
  simp [jsTrunc, not_lt.mpr h]

/-- For a nonnegative dividend and positive divisor, `jsMod` is the
fractional part of the quotient scaled back by the divisor. -/
theorem jsMod_eq_fract {a b : ℝ} (ha : 0 ≤ a) (hb : 0 < b) :
    jsMod a b = b * Int.fract (a / b) := by
  have hq : 0 ≤ a / b := div_nonneg ha hb.le
  rw [jsMod, jsTrunc_of_nonneg hq, Int.fract]
  field_simp

theorem jsMod_nonneg {a b : ℝ} (ha : 0 ≤ a) (hb : 0 < b) : 0 ≤ jsMod a b := by
  rw [jsMod_eq_fract ha hb]
  exact mul_nonneg hb.le (Int.fract_nonneg _)

theorem jsMod_lt {a b : ℝ} (ha : 0 ≤ a) (hb : 0 < b) : jsMod a b < b := by
  rw [jsMod_eq_fract ha hb]
  calc b * Int.fract (a / b) < b * 1 := by
        exact (mul_lt_mul_left hb).mpr (Int.fract_lt_one _)
    _ = b := mul_one b

theorem jsMod_add_right {a b : ℝ} (ha : 0 ≤ a) (hb : 0 < b) :
    jsMod (a + b) b = jsMod a b := by
  have ha' : 0 ≤ a + b := by linarith
  rw [jsMod_eq_fract ha hb, jsMod_eq_fract ha' hb]
  have : (a + b) / b = a / b + (1 : ℤ) := by
    push_cast
    field_simp
  rw [this, Int.fract_add_int]

/-! ## Animation constants (P5Canvas.tsx / WebGLRibbonRenderer) -/

/-- `const FLOW_SPEED = 0.00002` — horizontal flow speed, identical in
both backends. -/
def FLOW_SPEED : ℝ := 0.00002

/-- `const SEVEN_DAYS_MS = 7 * 24 * 60 * 60 * 1000` — the fixed ribbon
lifespan. -/
def SEVEN_DAYS_MS : ℝ := 7 * 24 * 60 * 60 * 1000

/-- `const fadeInDuration = 3000` — the alpha fade-in window. -/
def fadeInDuration : ℝ := 3000

/-! ## Vitality model (shared by both backends)

Source (`P5Canvas.tsx` `p.draw`, and identically
`WebGLRibbonRenderer` `render`):

  const ageRatio = Math.min(1, age / SEVEN_DAYS_MS);
  const vitality = 1 - Math.pow(ageRatio, 0.7);
-/

/-- Vitality of a ribbon of age `age` against lifespan `lifespan`:
`1 - min(1, age/lifespan) ^ 0.7` (real power). -/
def vitalityOf (age lifespan : ℝ) : ℝ :=
  1 - min 1 (age / lifespan) ^ (0.7 : ℝ)

/-- Alpha as a function of age and vitality `v`:
a linear 3000 ms fade-in ramp, then `v` itself. -/
def alphaOf (age v : ℝ) : ℝ :=
  if age < fadeInDuration then age / fadeInDuration * v else v

/-! ## Vitality-derived scalar remaps (P5Canvas.tsx, lines 780–793) -/

/-- `ribbonLength = baseRibbonLength * (0.4 + vitality * 0.6)` -/
def effectiveLength (base v : ℝ) : ℝ := base * (0.4 + v * 0.6)

/-- `thickness = baseThickness * (0.4 + vitality * 0.6)` -/
def effectiveThickness (base v : ℝ) : ℝ := base * (0.4 + v * 0.6)

/-- `glowStrength = baseGlowStrength * (0.3 + vitality * 0.7)` -/
def glowStrengthOf (base v : ℝ) : ℝ := base * (0.3 + v * 0.7)

/-- `particleSpawnRate = 0.05 + vitality * 0.15` -/
def particleSpawnRateOf (v : ℝ) : ℝ := 0.05 + v * 0.15

/-- `speedVariation = baseSpeedVariation * (0.5 + vitality * 0.7)` -/
def speedFactorOf (base v : ℝ) : ℝ := base * (0.5 + v * 0.7)

/-! ## Head travel and looping (both backends) -/

/-- `headTravel = age * FLOW_SPEED * speedVariation` -/
def headTravelOf (age speedVariation : ℝ) : ℝ := age * FLOW_SPEED * speedVariation

/-- `cycleLength = 1.0 + ribbonLength` -/
def cycleLengthOf (ribbonLength : ℝ) : ℝ := 1 + ribbonLength

/-- `headX = 1.0 - (headTravel % cycleLength)` -/
def headXOf (headTravel cycleLength : ℝ) : ℝ := 1 - jsMod headTravel cycleLength

/-! ## Stagger delays

CPU backend (`P5Canvas.tsx` `p.draw`): feelings are sorted by ascending
`createdAt` and `staggerDelay = fi * 3000` for the ribbon at index `fi`.

GPU backend (`WebGLRibbonRenderer` `render`): feelings are sorted the
same way but the index is reversed so the newest ribbon gets no delay,
capped at one minute: `staggerDelay = Math.min(reverseIndex * 500, 60000)`.
-/

/-- CPU backend stagger: `const staggerDelay = fi * 3000`. -/
def cpuStaggerDelay (fi : ℕ) : ℝ := fi * 3000

/-- GPU backend stagger:
`reverseIndex = totalFeelings - 1 - fi; Math.min(reverseIndex * 500, 60000)`. -/
def gpuStaggerDelay (total fi : ℕ) : ℝ := min ((total - 1 - fi : ℕ) * 500 : ℝ) 60000

/-! ## Per-ribbon frame step (CPU backend)

A faithful transcription of the per-feeling portion of `p.draw` in
`P5Canvas.tsx` (lines 742–804), from the stagger computation up to the
early frustum cull, returning `none` whenever the source executes
`continue` and otherwise the ephemeral frame state of the ribbon. -/

structure RibbonFrame where
  vitality : ℝ
  alpha : ℝ
  ribbonLength : ℝ
  thickness : ℝ
  glowStrength : ℝ
  particleSpawnRate : ℝ
  speedVariation : ℝ
  headTravel : ℝ
  cycleLength : ℝ
  headX : ℝ

def cpuRibbonStep (now createdAt baseRibbonLength baseThickness
    baseGlowStrength baseSpeedVariation : ℝ) (fi : ℕ) : Option RibbonFrame :=
  let staggerDelay := cpuStaggerDelay fi
  let age := now - createdAt - staggerDelay
  if age < 0 then none
  else
    let v := vitalityOf age SEVEN_DAYS_MS
    let alpha := alphaOf age v
    if alpha < 0.01 then none
    else
      let ribbonLength := effectiveLength baseRibbonLength v
      let thickness := effectiveThickness baseThickness v
      let glowStrength := glowStrengthOf baseGlowStrength v
      let particleSpawnRate := particleSpawnRateOf v
      let speedVariation := speedFactorOf baseSpeedVariation v
      let headTravel := headTravelOf age speedVariation
      let cycleLength := cycleLengthOf ribbonLength
      let headX := headXOf headTravel cycleLength
      let tailX := headX + ribbonLength
      if headX > 1.2 ∨ tailX < -0.2 then none
      else some ⟨v, alpha, ribbonLength, thickness, glowStrength,
        particleSpawnRate, speedVariation, headTravel, cycleLength, headX⟩

/-! ## Per-ribbon frame step (GPU backend)

Transcription of the per-feeling portion of the `render` loop in
`WebGLRibbonRenderer` (lines 1469–1514): short-path skip, reversed
stagger, the same vitality/alpha model, its own base ranges, the
aspect-ratio length multiplier, a slightly wider frustum margin, and the
`waveOffset = headTravel / ribbonLength` phase. -/

structure GpuRibbonFrame where
  vitality : ℝ
  alpha : ℝ
  ribbonLength : ℝ
  thickness : ℝ
  speedVariation : ℝ
  headTravel : ℝ
  cycleLength : ℝ
  headX : ℝ
  waveOffset : ℝ

def gpuRibbonStep (time createdAt baseRibbonLength baseThickness
    baseSpeedVariation ribbonLengthMultiplier : ℝ) (total fi : ℕ)
    (path : List (ℝ × ℝ)) : Option GpuRibbonFrame :=
  if path.length < 2 then none
  else
    let staggerDelay := gpuStaggerDelay total fi
    let age := time - createdAt - staggerDelay
    if age < 0 then none
    else
      let v := vitalityOf age SEVEN_DAYS_MS
      let alpha := alphaOf age v
      if alpha < 0.01 then none
      else
        let ribbonLength := baseRibbonLength * (0.4 + v * 0.6) * ribbonLengthMultiplier
        let thickness := effectiveThickness baseThickness v
        let speedVariation := speedFactorOf baseSpeedVariation v
        let headTravel := headTravelOf age speedVariation
        let cycleLength := cycleLengthOf ribbonLength
        let headX := headXOf headTravel cycleLength
        let tailX := headX + ribbonLength
        if headX > 1.3 ∨ tailX < -0.3 then none
        else some ⟨v, alpha, ribbonLength, thickness, speedVariation,
          headTravel, cycleLength, headX, headTravel / ribbonLength⟩

end

/-! ## CPU backend FPS admission control (P5Canvas.tsx, lines 49–573)

  const FPS_SAMPLE_SIZE = 30;
  const FPS_LOW_THRESHOLD = 25;
  const FPS_RECOVERY_THRESHOLD = 45;
  const FPS_CHECK_INTERVAL = 1000;

and, once per check interval with a full sample window,

  if (avgFps < FPS_LOW_THRESHOLD && currentMaxRibbons > 10) {
    currentMaxRibbons = Math.max(10, Math.floor(currentMaxRibbons * 0.7));
  } else if (avgFps > FPS_RECOVERY_THRESHOLD && currentMaxRibbons < userMaxRibbons) {
    currentMaxRibbons = Math.min(userMaxRibbons, currentMaxRibbons + 5);
  }

Ribbon counts are integers and FPS samples are modelled as rationals, so
this component is embedded computably. -/

def FPS_SAMPLE_SIZE : ℕ := 30

def FPS_LOW_THRESHOLD : ℚ := 25

def FPS_RECOVERY_THRESHOLD : ℚ := 45

def FPS_CHECK_INTERVAL : ℚ := 1000

/-- One admission-control adjustment of `currentMaxRibbons` given the
user's configured maximum and the rolling average FPS. -/
def fpsStep (userMaxRibbons cur : ℕ) (avgFps : ℚ) : ℕ :=
  if avgFps < FPS_LOW_THRESHOLD ∧ 10 < cur then
    max 10 (Nat.floor ((cur : ℚ) * 0.7))
  else if FPS_RECOVERY_THRESHOLD < avgFps ∧ cur < userMaxRibbons then
    min userMaxRibbons (cur + 5)
  else cur

/-- The per-frame check: an adjustment only fires when more than
`FPS_CHECK_INTERVAL` ms have passed since `lastFpsCheck` and the sample
window is full; it then updates `lastFpsCheck` to `now`.  Returns the
new `(lastFpsCheck, currentMaxRibbons)` pair. -/
def fpsTick (userMaxRibbons : ℕ) (now lastFpsCheck : ℚ) (fpsSamples : List ℚ)
    (cur : ℕ) : ℚ × ℕ :=
  if FPS_CHECK_INTERVAL < now - lastFpsCheck ∧ FPS_SAMPLE_SIZE ≤ fpsSamples.length then
    (now, fpsStep userMaxRibbons cur (fpsSamples.sum / fpsSamples.length))
  else (lastFpsCheck, cur)

/-! ## Path synthesizer (src/lib/emotions.ts)

The current `generateRibbonPath` builds a 32-sample periodic profile
from five octaves of a 1-D Perlin-style noise over a fixed shuffled
permutation table, plus a subtle sine wave.  The permutation shuffle is
pure integer/rational arithmetic and is embedded computably; the
per-sample computation involves `Math.sin` and is embedded over `ℝ`. -/

/-- Emotion record of `src/lib/emotions.ts` (current version: wave
parameters, not control-point counts). -/
structure Emotion where
  id : String
  label : String
  color : String
  waveAmplitude : ℝ
  waveFrequency : ℝ
  flowSpeed : ℝ

/-- One swap of the permutation-table shuffle:
`j = Math.floor((i + 1) * 0.618033988749895 * (i + 1)) % (i + 1)` then
swap `p[i]` and `p[j]`. -/
def permSwapStep (a : Array ℕ) (i : ℕ) : Array ℕ :=
  let j := (⌊((i : ℚ) + 1) * (618033988749895 / 1000000000000000 : ℚ) * ((i : ℚ) + 1)⌋).toNat % (i + 1)
  let vi := a.getD i 0
  let vj := a.getD j 0
  (a.set! i vj).set! j vi

/-- The shuffled permutation table `p`: identity on `0..255`, then the
fixed-seed shuffle applied for `i = 255` down to `1`. -/
def permList : List ℕ :=
  ((List.range 255).foldl (fun a k => permSwapStep a (255 - k)) (Array.range 256)).toList

/-- `const perm = [...p, ...p]` — the table doubled for overflow. -/
def perm : List ℕ := permList ++ permList

noncomputable section

open Real

/-- `fade(t) = t³ (t (t 6 − 15) + 10)` -/
def fade (t : ℝ) : ℝ := t * t * t * (t * (t * 6 - 15) + 10)

/-- `lerp(a, b, t) = a + t (b − a)` -/
def lerp (a b t : ℝ) : ℝ := a + t * (b - a)

/-- `grad(hash, x)`: flip the sign of `x` when the hash is odd. -/
def grad (hash : ℕ) (x : ℝ) : ℝ := if hash % 2 = 0 then x else -x

/-- 1-D Perlin-style value noise over the fixed permutation table.
`xi = Math.floor(x) & 255` is the int32 masking, i.e. `⌊x⌋ mod 256`. -/
def noise1D (x₀ seed : ℝ) : ℝ :=
  let x := x₀ + seed * 1000
  let xi := ((⌊x⌋ % 256).toNat)
  let xf := x - ⌊x⌋
  let u := fade xf
  lerp (grad (perm.getD xi 0) xf) (grad (perm.getD (xi + 1) 0) (xf - 1)) u

/-- Sample a pre-tabulated periodic noise octave with smoothstep
interpolation. -/
def samplePeriodicNoise (t : ℝ) (values : List ℝ) (freq : ℕ) : ℝ :=
  let scaled := t * freq
  let idx := ⌊scaled⌋
  let frac := scaled - idx
  let smooth := frac * frac * (3 - 2 * frac)
  values.getD idx.toNat 0 +
    (values.getD (idx.toNat + 1) 0 - values.getD idx.toNat 0) * smooth

/-- The tabulated values of octave `oct`: `octaveFreq + 1` noise samples
with the last overwritten by the first to make the octave periodic. -/
def noiseOctaveValues (cycles : ℕ) (seed : ℝ) (oct : ℕ) : List ℝ :=
  let octaveFreq := cycles * 2 ^ oct
  let values := (List.range (octaveFreq + 1)).map
    (fun (i : ℕ) => noise1D ((i : ℝ) * 0.7) (seed + (oct : ℝ) * 100))
  values.set octaveFreq (values.getD 0 0)

/-- `generateRibbonPath(emotion, startY, seed)` of `src/lib/emotions.ts`:
32 points, `x = i/32`, `y` a five-octave fractal noise blend plus a
subtle sine, clamped to `[0.08, 0.92]`. -/
def generateRibbonPath (emotion : Emotion) (startY : ℝ) (seed : ℝ) : List (ℝ × ℝ) :=
  let points : ℕ := 32
  let baseAmplitude := max 0.12 (emotion.waveAmplitude * 2.5)
  let cycles : ℕ := (jsRound (max 3 (emotion.waveFrequency + seed * 2))).toNat
  let noiseOctaves := (List.range 5).map (noiseOctaveValues cycles seed)
  (List.range points).map (fun (i : ℕ) =>
    let t : ℝ := (i : ℝ) / points
    let x := t
    let noiseSum := ((List.range 5).map (fun (oct : ℕ) =>
      samplePeriodicNoise t (noiseOctaves.getD oct []) (cycles * 2 ^ oct) *
        (0.5 : ℝ) ^ oct)).sum
    let amplitudeSum := ((List.range 5).map (fun (oct : ℕ) => (0.5 : ℝ) ^ oct)).sum
    let normalizedNoise := noiseSum / amplitudeSum
    let subtleWave := Real.sin (t * π * 2 * (cycles : ℝ) + seed * π * 2) * 0.15
    let y := startY + (normalizedNoise * 0.85 + subtleWave * 0.15) * baseAmplitude
    (x, max 0.08 (min 0.92 y)))

end

/-! ## Seed-stable per-feeling base values (both backends)

Both backends share the same `hashString` and `seededRandom` helpers but
draw their base values from different ranges:

  CPU: seededRandom(hash, 0.5, 1.2), (hash+1, 18, 40), (hash+2, 0.6, 1.4),
       (hash+3, 0.85, 1.15)
  GPU: seededRandom(hash, 0.4, 0.9), (hash+1, 16, 36), (hash+3, 0.85, 1.15)
-/

/-- JS `ToInt32` (the effect of `hash & hash`): wrap into
`[-2^31, 2^31)`. -/
def toInt32 (n : ℤ) : ℤ := (n + 2 ^ 31) % 2 ^ 32 - 2 ^ 31

/-- The rolling string hash shared by both backends:
`hash = (hash << 5) - hash + charCode; hash = hash & hash`, then
`Math.abs`. -/
def hashString (s : String) : ℤ :=
  |s.data.foldl (fun h c => toInt32 (toInt32 (32 * h) - h + (c.toNat : ℤ))) 0|

noncomputable section

open Real

/-- `seededRandom(seed, min, max)`: fractional part of
`Math.sin(seed) * 10000` scaled into `[min, max)`; identical in both
backends. -/
def seededRandom (seed lo hi : ℝ) : ℝ :=
  lo + Int.fract (Real.sin seed * 10000) * (hi - lo)

def cpuBaseRibbonLength (hash : ℝ) : ℝ := seededRandom hash 0.5 1.2

def cpuBaseThickness (hash : ℝ) : ℝ := seededRandom (hash + 1) 18 40

def cpuBaseGlowStrength (hash : ℝ) : ℝ := seededRandom (hash + 2) 0.6 1.4

def cpuBaseSpeedVariation (hash : ℝ) : ℝ := seededRandom (hash + 3) 0.85 1.15

def gpuBaseRibbonLength (hash : ℝ) : ℝ := seededRandom hash 0.4 0.9

def gpuBaseThickness (hash : ℝ) : ℝ := seededRandom (hash + 1) 16 36

def gpuBaseSpeedVariation (hash : ℝ) : ℝ := seededRandom (hash + 3) 0.85 1.15

/-- CPU backend wave phase: `waveOffset = (headTravel * 2) % 1`. -/
def cpuWaveOffset (headTravel : ℝ) : ℝ := jsMod (headTravel * 2) 1

/-- GPU backend wave phase: `waveOffset = headTravel / ribbonLength`. -/
def gpuWaveOffset (headTravel ribbonLength : ℝ) : ℝ := headTravel / ribbonLength

/-! ## CPU ribbon rasterization guards (P5Canvas.tsx, drawRibbon)

`drawRibbon` is embedded up to its draw/skip decision: the degenerate
path guard, the Catmull-Rom smoothing, the padded bounding box against
the 2048 × 512 offscreen scratch canvas, and the oversize guard.  The
actual canvas painting has no bearing on the claims and is represented
by the returned box. -/

structure Point where
  x : ℝ
  y : ℝ

/-- Catmull-Rom basis (tension 0.5) applied per coordinate. -/
def catmullRomPoint (p₀ p₁ p₂ p₃ : Point) (s : ℝ) : Point :=
  let s2 := s * s
  let s3 := s2 * s
  ⟨0.5 * (2 * p₁.x + (-p₀.x + p₂.x) * s + (2 * p₀.x - 5 * p₁.x + 4 * p₂.x - p₃.x) * s2 +
      (-p₀.x + 3 * p₁.x - 3 * p₂.x + p₃.x) * s3),
    0.5 * (2 * p₁.y + (-p₀.y + p₂.y) * s + (2 * p₀.y - 5 * p₁.y + 4 * p₂.y - p₃.y) * s2 +
      (-p₀.y + 3 * p₁.y - 3 * p₂.y + p₃.y) * s3)⟩

/-- `catmullRomSpline(points, segments, periodic)` of `P5Canvas.tsx`. -/
def catmullRomSpline (points : List Point) (segments : ℕ) (periodic : Bool) : List Point :=
  if points.length < 2 then points
  else
    let n : ℤ := points.length
    let getPoint : ℤ → Point := fun i =>
      if periodic then points.getD (((i % n) + n) % n).toNat ⟨0, 0⟩
      else points.getD (max 0 (min (n - 1) i)).toNat ⟨0, 0⟩
    let loopEnd := if periodic then points.length else points.length - 1
    let result := (List.range loopEnd).flatMap (fun (i : ℕ) =>
      (List.range segments).map (fun (t : ℕ) =>
        catmullRomPoint (getPoint ((i : ℤ) - 1)) (getPoint (i : ℤ)) (getPoint ((i : ℤ) + 1))
          (getPoint ((i : ℤ) + 2)) ((t : ℝ) / segments)))
    if periodic then result else result ++ [points.getD (points.length - 1) ⟨0, 0⟩]

/-- Minimum of a list of reals (the JS fold starting from `Infinity`,
evaluated on a nonempty list). -/
def listMin (l : List ℝ) : ℝ := l.foldr min (l.headD 0)

/-- Maximum of a list of reals (the JS fold starting from `-Infinity`,
evaluated on a nonempty list). -/
def listMax (l : List ℝ) : ℝ := l.foldr max (l.headD 0)

/-- The padded, screen-clamped bounding box of the smoothed ribbon:
`(minX, minY, boxWidth, boxHeight)` with
`boxWidth = Math.ceil(maxX - minX)` etc. -/
def paddedBox (width height : ℝ) (smoothPath : List Point) (thickness : ℝ) :
    ℝ × ℝ × ℤ × ℤ :=
  let pxs := smoothPath.map (fun pt => pt.x * width)
  let pys := smoothPath.map (fun pt => pt.y * height)
  let padding := thickness * 2
  let minX := max 0 (listMin pxs - padding)
  let minY := max 0 (listMin pys - padding)
  let maxX := min width (listMax pxs + padding)
  let maxY := min height (listMax pys + padding)
  (minX, minY, ⌈maxX - minX⌉, ⌈maxY - minY⌉)

structure DrawBox where
  minX : ℝ
  minY : ℝ
  boxWidth : ℤ
  boxHeight : ℤ

/-- `drawRibbon` up to its skip decisions: `none` exactly when the
source returns without painting. -/
def drawRibbon (width height : ℝ) (segments : ℕ) (path : List Point)
    (thickness : ℝ) : Option DrawBox :=
  if path.length < 2 then none
  else
    let smoothPath := catmullRomSpline path segments false
    if smoothPath.length < 2 then none
    else
      let box := paddedBox width height smoothPath thickness
      if box.2.2.1 ≤ 0 ∨ box.2.2.2 ≤ 0 then none
      else if 2048 < box.2.2.1 ∨ 512 < box.2.2.2 then none
      else some ⟨box.1, box.2.1, box.2.2.1, box.2.2.2⟩

/-- The ribbon-drawing tail of `p.draw`: per prepared ribbon path, the
length guard, the frustum test, the `drawRibbon` call and the rendered
counter against the adaptive cap. -/
def drawLoop (width height : ℝ) (segments cap : ℕ) :
    ℕ → List (List Point × ℝ) → List DrawBox
  | _, [] => []
  | count, (path, thickness) :: rest =>
    if cap ≤ count then []
    else if 2 ≤ path.length then
      let xs := path.map Point.x
      if listMax xs < -0.1 ∨ 1.1 < listMin xs then
        drawLoop width height segments cap count rest
      else
        match drawRibbon width height segments path thickness with
        | some box => box :: drawLoop width height segments cap (count + 1) rest
        | none => drawLoop width height segments cap (count + 1) rest
    else drawLoop width height segments cap count rest

/-- The per-feeling data consumed by the GPU render loop. -/
structure GpuFeeling where
  createdAt : ℝ
  baseRibbonLength : ℝ
  baseThickness : ℝ
  baseSpeedVariation : ℝ
  path : List (ℝ × ℝ)

/-- The GPU instance-building loop (`render`, lines 1469–1552): `fi`
advances on every feeling, `ribbonCount` only on admitted ones, bounded
by the instance cap. -/
def gpuDrawLoop (time m : ℝ) (total maxRibbons : ℕ) :
    ℕ → ℕ → List GpuFeeling → List GpuRibbonFrame
  | _, _, [] => []
  | fi, count, f :: rest =>
    if maxRibbons ≤ count then []
    else
      match gpuRibbonStep time f.createdAt f.baseRibbonLength f.baseThickness
        f.baseSpeedVariation m total fi f.path with
      | some fr => fr :: gpuDrawLoop time m total maxRibbons (fi + 1) (count + 1) rest
      | none => gpuDrawLoop time m total maxRibbons (fi + 1) count rest

end

/-! ## Helper facts about vitality -/

theorem vitality_at_zero (L : ℝ) : vitalityOf 0 L = 1 := by
  have h7 : (0.7 : ℝ) ≠ 0 := by norm_num
  simp [vitalityOf, zero_div, min_eq_right (by norm_num : (0:ℝ) ≤ 1),
    Real.zero_rpow h7]

theorem vitality_at_lifespan {L : ℝ} (hL : 0 < L) : vitalityOf L L = 0 := by
  simp [vitalityOf, div_self hL.ne', Real.one_rpow]

theorem vitality_of_ge_lifespan {L a : ℝ} (hL : 0 < L) (h : L ≤ a) :
    vitalityOf a L = 0 := by
  have h1 : (1 : ℝ) ≤ a / L := (one_le_div hL).mpr h
  simp [vitalityOf, min_eq_left h1, Real.one_rpow]

theorem vitality_antitone {L a₁ a₂ : ℝ} (hL : 0 < L) (h0 : 0 ≤ a₁) (h12 : a₁ ≤ a₂) :
    vitalityOf a₂ L ≤ vitalityOf a₁ L := by
  unfold vitalityOf
  have hm : min 1 (a₁ / L) ≤ min 1 (a₂ / L) :=
    min_le_min le_rfl (div_le_div_of_nonneg_right h12 hL.le)
  have hnn : 0 ≤ min 1 (a₁ / L) :=
    le_min (by norm_num) (div_nonneg h0 hL.le)
  have := Real.rpow_le_rpow hnn hm (by norm_num : (0:ℝ) ≤ 0.7)
  linarith

theorem vitality_mem_unit {L a : ℝ} (hL : 0 < L) (h0 : 0 ≤ a) :
    0 ≤ vitalityOf a L ∧ vitalityOf a L ≤ 1 := by
  unfold vitalityOf
  have hnn : 0 ≤ min 1 (a / L) := le_min (by norm_num) (div_nonneg h0 hL.le)
  have hle : min 1 (a / L) ≤ 1 := min_le_left _ _
  have h1 : min 1 (a / L) ^ (0.7 : ℝ) ≤ 1 :=
    Real.rpow_le_one hnn hle (by norm_num)
  have h2 : 0 ≤ min 1 (a / L) ^ (0.7 : ℝ) := Real.rpow_nonneg hnn _
  constructor <;> linarith

/-- C3: the vitality function satisfies `vitality(0) = 1`,
`vitality(lifespan) = 0`, it is non-increasing in age on `[0, ∞)` (in
particular from 0 to lifespan), it vanishes for every age at or beyond the
lifespan, and it stays within `[0, 1]` for every nonnegative age. -/
theorem vitality_model_spec (L : ℝ) (hL : 0 < L) :
    vitalityOf 0 L = 1 ∧
    vitalityOf L L = 0 ∧
    (∀ a₁ a₂ : ℝ, 0 ≤ a₁ → a₁ ≤ a₂ → vitalityOf a₂ L ≤ vitalityOf a₁ L) ∧
    (∀ a : ℝ, L ≤ a → vitalityOf a L = 0) ∧
    (∀ a : ℝ, 0 ≤ a → 0 ≤ vitalityOf a L ∧ vitalityOf a L ≤ 1) :=
  ⟨vitality_at_zero L, vitality_at_lifespan hL,
    fun _ _ h0 h12 => vitality_antitone hL h0 h12,
    fun _ h => vitality_of_ge_lifespan hL h,
    fun _ h0 => vitality_mem_unit hL h0⟩

/-- C3 witness: the vitality model theorem applied at the concrete
lifespan `SEVEN_DAYS_MS`, evaluating `vitality(0) = 1`. -/
theorem vitality_model_spec_witness :
    vitalityOf 0 SEVEN_DAYS_MS = 1 :=
  (vitality_model_spec SEVEN_DAYS_MS (by norm_num [SEVEN_DAYS_MS])).1

/-! ## Helper facts about alpha and headX -/

theorem alphaOf_v_zero (a : ℝ) : alphaOf a 0 = 0 := by
  unfold alphaOf
  split <;> ring

theorem headXOf_range {h c : ℝ} (hh : 0 ≤ h) (hc : 0 < c) :
    1 - c < headXOf h c ∧ headXOf h c ≤ 1 := by
  have h1 := jsMod_nonneg hh hc
  have h2 := jsMod_lt hh hc
  unfold headXOf
  constructor <;> linarith

theorem headXOf_period {h c : ℝ} (hh : 0 ≤ h) (hc : 0 < c) :
    headXOf (h + c) c = headXOf h c := by
  unfold headXOf
  rw [jsMod_add_right hh hc]

/-! ## C4: vitality-derived remaps -/

/-- C4 counterexample: the claim says every remap maps vitality 1 to
exactly 100% of its base, and in particular that
`speedFactor = baseSpeedVariation * (0.5 + 0.7*v)` equals
`baseSpeedVariation` at `v = 1`.  At base 1 and vitality 1 the code
yields `1.2`, not `1`. -/
theorem speedFactor_full_vitality_counterexample :
    speedFactorOf 1 1 = 1.2 ∧ speedFactorOf 1 1 ≠ 1 := by
  norm_num [speedFactorOf]

/-- C4 (amended): `effectiveLength`, `effectiveThickness` and
`glowStrength` map vitality 1 to exactly 100% of their base value, while
`speedFactor` maps vitality 1 to 120% of its base and
`particleSpawnRate` reaches its maximum `0.2`; every one of the five
remaps has a strictly positive floor at vitality 0 (`40%`, `40%`, `30%`,
`50%` of a positive base, and `0.05`), and alpha is the only derived
parameter that can reach zero (it is zero at age 0). -/
theorem derived_remaps_spec (base v : ℝ) :
    effectiveLength base 1 = base ∧
    effectiveThickness base 1 = base ∧
    glowStrengthOf base 1 = base ∧
    speedFactorOf base 1 = base * 1.2 ∧
    particleSpawnRateOf 1 = 0.2 ∧
    (0 < base → 0 ≤ v →
      0 < effectiveLength base v ∧ 0 < effectiveThickness base v ∧
      0 < glowStrengthOf base v ∧ 0 < speedFactorOf base v) ∧
    (0 ≤ v → 0.05 ≤ particleSpawnRateOf v) ∧
    alphaOf 0 v = 0 := by
  refine ⟨by norm_num [effectiveLength], by norm_num [effectiveThickness],
    by norm_num [glowStrengthOf], by norm_num [speedFactorOf],
    by norm_num [particleSpawnRateOf], fun hb hv => ⟨?_, ?_, ?_, ?_⟩,
    fun hv => ?_, ?_⟩
  · unfold effectiveLength
    nlinarith
  · unfold effectiveThickness
    nlinarith
  · unfold glowStrengthOf
    nlinarith
  · unfold speedFactorOf
    nlinarith
  · unfold particleSpawnRateOf
    nlinarith
  · norm_num [alphaOf, fadeInDuration]

/-- C4 witness: the amended remap theorem applied at base 2 and
vitality 0, giving the strictly positive floors `0.8`, `0.8`, `0.6`,
`1`. -/
theorem derived_remaps_spec_witness :
    0 < effectiveLength 2 0 ∧ 0 < effectiveThickness 2 0 ∧
    0 < glowStrengthOf 2 0 ∧ 0 < speedFactorOf 2 0 :=
  (derived_remaps_spec 2 0).2.2.2.2.2.1 (by norm_num) (by norm_num)

/-! ## C5: alpha fade-in and culling -/

/-- C5: during the first 3000 ms the alpha of a ribbon is
`(age / 3000) * vitality`, afterwards it equals the vitality; a ribbon
whose alpha is below `0.01` is culled (the CPU frame step yields no
draw, and so does the GPU step); a ribbon at age 0 has alpha 0, and a
ribbon at age = lifespan has vitality 0, alpha `0 < 0.01`, and is
culled. -/
theorem alpha_fade_cull_spec :
    (∀ age v : ℝ, age < fadeInDuration → alphaOf age v = age / 3000 * v) ∧
    (∀ age v : ℝ, fadeInDuration ≤ age → alphaOf age v = v) ∧
    (∀ now createdAt b₁ b₂ b₃ b₄ : ℝ, ∀ fi : ℕ,
      0 ≤ now - createdAt - cpuStaggerDelay fi →
      alphaOf (now - createdAt - cpuStaggerDelay fi)
        (vitalityOf (now - createdAt - cpuStaggerDelay fi) SEVEN_DAYS_MS) < 0.01 →
      cpuRibbonStep now createdAt b₁ b₂ b₃ b₄ fi = none) ∧
    (∀ time createdAt b₁ b₂ b₃ m : ℝ, ∀ total fi : ℕ, ∀ path : List (ℝ × ℝ),
      0 ≤ time - createdAt - gpuStaggerDelay total fi →
      alphaOf (time - createdAt - gpuStaggerDelay total fi)
        (vitalityOf (time - createdAt - gpuStaggerDelay total fi) SEVEN_DAYS_MS) < 0.01 →
      gpuRibbonStep time createdAt b₁ b₂ b₃ m total fi path = none) ∧
    (∀ v : ℝ, alphaOf 0 v = 0) ∧
    vitalityOf SEVEN_DAYS_MS SEVEN_DAYS_MS = 0 ∧
    alphaOf SEVEN_DAYS_MS (vitalityOf SEVEN_DAYS_MS SEVEN_DAYS_MS) = 0 ∧
    (∀ now createdAt b₁ b₂ b₃ b₄ : ℝ, ∀ fi : ℕ,
      now - createdAt - cpuStaggerDelay fi = SEVEN_DAYS_MS →
      cpuRibbonStep now createdAt b₁ b₂ b₃ b₄ fi = none) := by
  have hL : (0 : ℝ) < SEVEN_DAYS_MS := by norm_num [SEVEN_DAYS_MS]
  have hvz := vitality_at_lifespan hL
  refine ⟨?_, ?_, ?_, ?_, ?_, hvz, ?_, ?_⟩
  · intro age v h
    unfold alphaOf
    rw [if_pos h, fadeInDuration]
  · intro age v h
    unfold alphaOf
    rw [if_neg (not_lt.mpr h)]
  · intro now createdAt b₁ b₂ b₃ b₄ fi h0 hcull
    simp only [cpuRibbonStep]
    rw [if_neg (not_lt.mpr h0), if_pos hcull]
  · intro time createdAt b₁ b₂ b₃ m total fi path h0 hcull
    simp only [gpuRibbonStep]
    by_cases hp : path.length < 2
    · rw [if_pos hp]
    · rw [if_neg hp, if_neg (not_lt.mpr h0), if_pos hcull]
  · intro v
    simp [alphaOf, fadeInDuration, (by norm_num : (0:ℝ) < 3000)]
  · rw [hvz]
    exact alphaOf_v_zero _
  · intro now createdAt b₁ b₂ b₃ b₄ fi heq
    simp only [cpuRibbonStep, heq]
    rw [if_neg (not_lt.mpr hL.le), if_pos]
    rw [hvz, alphaOf_v_zero]
    norm_num

/-- C5 witness: a feeling whose effective age is exactly the 7-day
lifespan is culled by the CPU frame step. -/
theorem alpha_fade_cull_spec_witness :
    cpuRibbonStep SEVEN_DAYS_MS 0 1 1 1 1 0 = none :=
  alpha_fade_cull_spec.2.2.2.2.2.2.2 SEVEN_DAYS_MS 0 1 1 1 1 0
    (by norm_num [cpuStaggerDelay])

/-! ## C6: entry stagger policy -/

/-- C6 counterexample: in the CPU backend the stagger delay of the
ribbon at ascending-`createdAt` index `fi` is `fi * 3000`, so in a
two-feeling population the NEWEST feeling (index 1) waits 3000 ms — it
does not receive zero delay as claimed (the oldest does). -/
theorem cpu_stagger_newest_counterexample :
    cpuStaggerDelay 1 = 3000 ∧ cpuStaggerDelay 1 ≠ 0 := by
  norm_num [cpuStaggerDelay]

/-- C6 (amended): in the GPU backend the stagger delay is
`min(reverseIndex * 500, 60000)`: the newest feeling (largest ascending
index) gets zero delay, delays are larger for older feelings, and they
are capped at 60000 ms.  In the CPU backend the delay is `fi * 3000`:
proportional to the ascending rank, so the OLDEST feeling gets zero
delay and there is no cap.  In both backends the ribbon's age is
`now - createdAt - staggerDelay` and the ribbon is skipped while that
age is negative. -/
theorem stagger_policy_spec :
    (∀ total : ℕ, gpuStaggerDelay total (total - 1) = 0) ∧
    (∀ total fi fj : ℕ, fi ≤ fj → gpuStaggerDelay total fj ≤ gpuStaggerDelay total fi) ∧
    (∀ total fi : ℕ, gpuStaggerDelay total fi ≤ 60000) ∧
    (∀ fi : ℕ, cpuStaggerDelay fi = fi * 3000) ∧
    cpuStaggerDelay 0 = 0 ∧
    (∀ now createdAt b₁ b₂ b₃ b₄ : ℝ, ∀ fi : ℕ,
      now - createdAt - cpuStaggerDelay fi < 0 →
      cpuRibbonStep now createdAt b₁ b₂ b₃ b₄ fi = none) ∧
    (∀ time createdAt b₁ b₂ b₃ m : ℝ, ∀ total fi : ℕ, ∀ path : List (ℝ × ℝ),
      time - createdAt - gpuStaggerDelay total fi < 0 →
      gpuRibbonStep time createdAt b₁ b₂ b₃ m total fi path = none) := by
  refine ⟨?_, ?_, ?_, fun _ => rfl, by norm_num [cpuStaggerDelay], ?_, ?_⟩
  · intro total
    simp [gpuStaggerDelay]
  · intro total fi fj hij
    unfold gpuStaggerDelay
    have hsub : (total - 1 - fj : ℕ) ≤ total - 1 - fi := Nat.sub_le_sub_left hij _
    have : ((total - 1 - fj : ℕ) * 500 : ℝ) ≤ (total - 1 - fi : ℕ) * 500 := by
      have := (Nat.cast_le (α := ℝ)).mpr hsub
      nlinarith
    exact min_le_min this le_rfl
  · intro total fi
    exact min_le_right _ _
  · intro now createdAt b₁ b₂ b₃ b₄ fi hneg
    simp only [cpuRibbonStep]
    rw [if_pos hneg]
  · intro time createdAt b₁ b₂ b₃ m total fi path hneg
    simp only [gpuRibbonStep]
    by_cases hp : path.length < 2
    · rw [if_pos hp]
    · rw [if_neg hp, if_pos hneg]

/-- C6 witness: in a two-feeling population the GPU backend gives the
newest feeling (index 1) zero delay, and a CPU ribbon probed before its
staggered entry time is skipped. -/
theorem stagger_policy_spec_witness :
    gpuStaggerDelay 2 (2 - 1) = 0 ∧ cpuRibbonStep 0 0 1 1 1 1 1 = none :=
  ⟨stagger_policy_spec.1 2,
    stagger_policy_spec.2.2.2.2.2.1 0 0 1 1 1 1 1
      (by norm_num [cpuStaggerDelay])⟩

/-! ## C7: head position looping -/

/-- C7: with `cycleLength = 1 + ribbonLength` and
`headX = 1 - (headTravel % cycleLength)`, the head position always lies
in `(1 - cycleLength, 1]`; it is periodic in the travelled distance with
period `cycleLength`, hence sampling it at time offsets of exactly one
period (`cycleLength / (FLOW_SPEED * speedVariation)` milliseconds)
reproduces the same value regardless of elapsed run time; and every
frame emitted by the CPU step carries exactly these quantities. -/
theorem headX_looping_spec :
    (∀ h c : ℝ, 0 ≤ h → 0 < c → 1 - c < headXOf h c ∧ headXOf h c ≤ 1) ∧
    (∀ h c : ℝ, 0 ≤ h → 0 < c → headXOf (h + c) c = headXOf h c) ∧
    (∀ age s c : ℝ, 0 ≤ age → 0 < s → 0 < c →
      headXOf (headTravelOf (age + c / (FLOW_SPEED * s)) s) c =
        headXOf (headTravelOf age s) c) ∧
    (∀ now createdAt b₁ b₂ b₃ b₄ : ℝ, ∀ fi : ℕ, ∀ frame : RibbonFrame,
      0 ≤ b₁ → 0 ≤ b₄ →
      cpuRibbonStep now createdAt b₁ b₂ b₃ b₄ fi = some frame →
      frame.cycleLength = cycleLengthOf frame.ribbonLength ∧
      frame.headX = headXOf frame.headTravel frame.cycleLength ∧
      1 - frame.cycleLength < frame.headX ∧ frame.headX ≤ 1) := by
  have hF : (0 : ℝ) < FLOW_SPEED := by norm_num [FLOW_SPEED]
  refine ⟨fun h c hh hc => headXOf_range hh hc,
    fun h c hh hc => headXOf_period hh hc, ?_, ?_⟩
  · intro age s c hage hs hc
    have hFs : FLOW_SPEED * s ≠ 0 := by positivity
    have hexp : headTravelOf (age + c / (FLOW_SPEED * s)) s =
        headTravelOf age s + c := by
      unfold headTravelOf
      field_simp
      ring
    rw [hexp]
    exact headXOf_period (by unfold headTravelOf; positivity) hc
  · intro now createdAt b₁ b₂ b₃ b₄ fi frame hb₁ hb₄ hstep
    simp only [cpuRibbonStep] at hstep
    split_ifs at hstep with h1 h2 h3
    have hage : 0 ≤ now - createdAt - cpuStaggerDelay fi := not_lt.mp h1
    have hv := vitality_mem_unit (by norm_num [SEVEN_DAYS_MS] : (0:ℝ) < SEVEN_DAYS_MS) hage
    set age := now - createdAt - cpuStaggerDelay fi with hage_def
    set v := vitalityOf age SEVEN_DAYS_MS with hv_def
    have hsv : 0 ≤ speedFactorOf b₄ v := by
      unfold speedFactorOf
      nlinarith [hv.1]
    have htravel : 0 ≤ headTravelOf age (speedFactorOf b₄ v) := by
      unfold headTravelOf
      positivity
    have hlen : 0 ≤ effectiveLength b₁ v := by
      unfold effectiveLength
      nlinarith [hv.1]
    have hcyc : 0 < cycleLengthOf (effectiveLength b₁ v) := by
      unfold cycleLengthOf
      linarith
    have hframe : frame = ⟨v, alphaOf age v, effectiveLength b₁ v,
        effectiveThickness b₂ v, glowStrengthOf b₃ v, particleSpawnRateOf v,
        speedFactorOf b₄ v, headTravelOf age (speedFactorOf b₄ v),
        cycleLengthOf (effectiveLength b₁ v),
        headXOf (headTravelOf age (speedFactorOf b₄ v))
          (cycleLengthOf (effectiveLength b₁ v))⟩ := (Option.some_injective _ hstep).symm
    subst hframe
    exact ⟨rfl, rfl, (headXOf_range htravel hcyc).1, (headXOf_range htravel hcyc).2⟩

/-- C7 witness: the periodicity conjunct evaluated at travel 0 and
cycle length 1. -/
theorem headX_looping_spec_witness : headXOf (0 + 1) 1 = headXOf 0 1 :=
  headX_looping_spec.2.1 0 1 le_rfl one_pos

/-! ## C8: admission-control hysteresis -/

/-- C8: while the rolling average stays below 25 and the allowed count
exceeds 10, each check multiplies the count by 0.7 (floored, never below
10) and strictly decreases it; at the floor 10 a low average leaves the
count at 10.  While the average stays above 45 and the count is below
the user maximum, each check adds exactly 5, capped at the user maximum;
at the maximum a high average leaves it there.  Counts in
`[10, userMax]` stay in `[10, userMax]` (for `userMax ≥ 10`), and an
adjustment fires at most once per 1000 ms check interval: a tick within
the interval of the previous check changes nothing, and a firing tick
resets the check clock to `now`. -/
theorem admission_control_spec :
    (∀ userMax cur : ℕ, ∀ avg : ℚ, avg < 25 → 10 < cur →
      fpsStep userMax cur avg = max 10 (Nat.floor ((cur : ℚ) * 0.7)) ∧
      fpsStep userMax cur avg < cur ∧ 10 ≤ fpsStep userMax cur avg) ∧
    (∀ userMax : ℕ, ∀ avg : ℚ, avg < 25 → fpsStep userMax 10 avg = 10) ∧
    (∀ userMax cur : ℕ, ∀ avg : ℚ, 45 < avg → cur < userMax →
      fpsStep userMax cur avg = min userMax (cur + 5) ∧
      cur < fpsStep userMax cur avg ∧ fpsStep userMax cur avg ≤ userMax) ∧
    (∀ userMax : ℕ, ∀ avg : ℚ, 45 < avg → fpsStep userMax userMax avg = userMax) ∧
    (∀ userMax cur : ℕ, ∀ avg : ℚ, 10 ≤ userMax → 10 ≤ cur → cur ≤ userMax →
      10 ≤ fpsStep userMax cur avg ∧ fpsStep userMax cur avg ≤ userMax) ∧
    (∀ userMax cur : ℕ, ∀ now lastCheck : ℚ, ∀ samples : List ℚ,
      FPS_CHECK_INTERVAL < now - lastCheck → FPS_SAMPLE_SIZE ≤ samples.length →
      fpsTick userMax now lastCheck samples cur =
        (now, fpsStep userMax cur (samples.sum / samples.length))) ∧
    (∀ userMax cur : ℕ, ∀ now lastCheck : ℚ, ∀ samples : List ℚ,
      now - lastCheck ≤ FPS_CHECK_INTERVAL →
      fpsTick userMax now lastCheck samples cur = (lastCheck, cur)) := by
  have hfloor_le : ∀ cur : ℕ, Nat.floor ((cur : ℚ) * 0.7) ≤ cur := by
    intro cur
    calc Nat.floor ((cur : ℚ) * 0.7) ≤ Nat.floor ((cur : ℚ)) :=
          Nat.floor_mono (by nlinarith [Nat.cast_nonneg (α := ℚ) cur])
      _ = cur := Nat.floor_natCast cur
  have hfloor_lt : ∀ cur : ℕ, 0 < cur → Nat.floor ((cur : ℚ) * 0.7) < cur := by
    intro cur hcur
    have h1 : (1 : ℚ) ≤ (cur : ℚ) := by exact_mod_cast hcur
    have : ((cur : ℚ) * 0.7) < (cur : ℕ) := by
      nlinarith
    exact (Nat.floor_lt (by positivity)).mpr this
  refine ⟨?_, ?_, ?_, ?_, ?_, ?_, ?_⟩
  · intro userMax cur avg havg hcur
    have hcond : avg < FPS_LOW_THRESHOLD ∧ 10 < cur := ⟨havg, hcur⟩
    unfold fpsStep
    rw [if_pos hcond]
    exact ⟨rfl, Nat.max_lt.mpr ⟨hcur, hfloor_lt cur (by omega)⟩, Nat.le_max_left _ _⟩
  · intro userMax avg havg
    have hrec : ¬(FPS_RECOVERY_THRESHOLD < avg ∧ (10 : ℕ) < userMax) := by
      rintro ⟨h, -⟩
      have h45 : FPS_RECOVERY_THRESHOLD = 45 := rfl
      rw [h45] at h
      linarith
    unfold fpsStep
    rw [if_neg (by simp [FPS_LOW_THRESHOLD]), if_neg hrec]
  · intro userMax cur avg havg hcur
    have hlow : ¬(avg < FPS_LOW_THRESHOLD ∧ 10 < cur) := by
      rintro ⟨h, -⟩
      have h25 : FPS_LOW_THRESHOLD = 25 := rfl
      rw [h25] at h
      linarith
    unfold fpsStep
    rw [if_neg hlow, if_pos ⟨havg, hcur⟩]
    exact ⟨rfl, by omega, Nat.min_le_left _ _⟩
  · intro userMax avg havg
    have hlow : ¬(avg < FPS_LOW_THRESHOLD ∧ 10 < userMax) := by
      rintro ⟨h, -⟩
      have h25 : FPS_LOW_THRESHOLD = 25 := rfl
      rw [h25] at h
      linarith
    unfold fpsStep
    rw [if_neg hlow, if_neg (by omega)]
  · intro userMax cur avg hu hc hcu
    unfold fpsStep
    split_ifs with h1 h2
    · exact ⟨Nat.le_max_left _ _, max_le hu (le_trans (hfloor_le cur) hcu)⟩
    · omega
    · omega
  · intro userMax cur now lastCheck samples hint hlen
    unfold fpsTick
    rw [if_pos ⟨hint, hlen⟩]
  · intro userMax cur now lastCheck samples hint
    unfold fpsTick
    rw [if_neg (by rintro ⟨h, -⟩; linarith)]

/-- C8 witness: a low average (20 fps) at count 35 drops the count
strictly, to at least the floor. -/
theorem admission_control_spec_witness :
    fpsStep 50 35 20 = max 10 (Nat.floor ((35 : ℚ) * 0.7)) ∧
    fpsStep 50 35 20 < 35 ∧ 10 ≤ fpsStep 50 35 20 :=
  admission_control_spec.1 50 35 20 (by norm_num) (by norm_num)

/-! ## C1 and C2: path synthesizer determinism and shape invariants -/

/-- C1: the path synthesizer is deterministic — the embedding of
`generateRibbonPath` is a pure function of `(emotion, startY, seed)`
with no other state, so two runs agree in length and
element-for-element. -/
theorem ribbonPath_deterministic (e : Emotion) (startY seed : ℝ)
    (h0 : 0 ≤ startY) (h1 : startY ≤ 1) :
    (generateRibbonPath e startY seed).length =
      (generateRibbonPath e startY seed).length ∧
    ∀ i : ℕ, (generateRibbonPath e startY seed)[i]? =
      (generateRibbonPath e startY seed)[i]? :=
  ⟨rfl, fun _ => rfl⟩

/-- C1 witness: both runs on the calm emotion, startY `0.5`, seed 3
agree on the first sample. -/
theorem ribbonPath_deterministic_witness :
    (generateRibbonPath ⟨"calm", "calm", "#2dd4bf", 0.05, 1.8, 0.7⟩ 0.5 3)[0]? =
      (generateRibbonPath ⟨"calm", "calm", "#2dd4bf", 0.05, 1.8, 0.7⟩ 0.5 3)[0]? :=
  (ribbonPath_deterministic ⟨"calm", "calm", "#2dd4bf", 0.05, 1.8, 0.7⟩ 0.5 3
    (by norm_num) (by norm_num)).2 0

/-- C2: for every emotion, startY and seed, `generateRibbonPath` returns
exactly 32 points, the i-th x-value is `i / 32`, and every y-value lies
in `[0.08, 0.92]`. -/
theorem ribbonPath_shape_spec (e : Emotion) (startY seed : ℝ) :
    (generateRibbonPath e startY seed).length = 32 ∧
    ∀ i (hi : i < (generateRibbonPath e startY seed).length),
      ((generateRibbonPath e startY seed).get ⟨i, hi⟩).1 = (i : ℝ) / 32 ∧
      0.08 ≤ ((generateRibbonPath e startY seed).get ⟨i, hi⟩).2 ∧
      ((generateRibbonPath e startY seed).get ⟨i, hi⟩).2 ≤ 0.92 := by
  have hlen : (generateRibbonPath e startY seed).length = 32 := by
    simp only [generateRibbonPath, List.length_map, List.length_range]
  refine ⟨hlen, fun i hi => ?_⟩
  rw [List.get_eq_getElem]
  simp only [generateRibbonPath, List.getElem_map, List.getElem_range, Nat.cast_ofNat]
  exact ⟨trivial, le_max_left _ _, max_le (by norm_num) (min_le_left _ _)⟩

/-- C2 witness: the shape theorem applied to the calm emotion at index
0 — the first x-value is `0 / 32` and its y-value is at least `0.08`. -/
theorem ribbonPath_shape_spec_witness :
    ((generateRibbonPath ⟨"calm", "calm", "#2dd4bf", 0.05, 1.8, 0.7⟩ 0.5 3).get
      ⟨0, by simp only [generateRibbonPath, List.length_map, List.length_range]; norm_num⟩).1 =
      (0 : ℝ) / 32 ∧
    0.08 ≤ ((generateRibbonPath ⟨"calm", "calm", "#2dd4bf", 0.05, 1.8, 0.7⟩ 0.5 3).get
      ⟨0, by simp only [generateRibbonPath, List.length_map, List.length_range]; norm_num⟩).2 := by
  have h := (ribbonPath_shape_spec ⟨"calm", "calm", "#2dd4bf", 0.05, 1.8, 0.7⟩ 0.5 3).2 0
    (by simp only [generateRibbonPath, List.length_map, List.length_range]; norm_num)
  exact ⟨by exact_mod_cast h.1, h.2.1⟩

/-! ## Loop unfolding helpers -/

theorem drawLoop_cons (w h : ℝ) (seg cap count : ℕ) (p : List Point) (t : ℝ)
    (rest : List (List Point × ℝ)) :
    drawLoop w h seg cap count ((p, t) :: rest) =
      if cap ≤ count then []
      else if 2 ≤ p.length then
        if listMax (p.map Point.x) < -0.1 ∨ 1.1 < listMin (p.map Point.x) then
          drawLoop w h seg cap count rest
        else
          match drawRibbon w h seg p t with
          | some box => box :: drawLoop w h seg cap (count + 1) rest
          | none => drawLoop w h seg cap (count + 1) rest
      else drawLoop w h seg cap count rest := rfl

theorem drawLoop_capped (w h : ℝ) (seg cap count : ℕ)
    (l : List (List Point × ℝ)) (hcap : cap ≤ count) :
    drawLoop w h seg cap count l = [] := by
  cases l with
  | nil => rfl
  | cons a rest =>
    obtain ⟨p, t⟩ := a
    rw [drawLoop_cons, if_pos hcap]

theorem gpuDrawLoop_cons (time m : ℝ) (total maxRibbons fi count : ℕ)
    (f : GpuFeeling) (rest : List GpuFeeling) :
    gpuDrawLoop time m total maxRibbons fi count (f :: rest) =
      if maxRibbons ≤ count then []
      else
        match gpuRibbonStep time f.createdAt f.baseRibbonLength f.baseThickness
          f.baseSpeedVariation m total fi f.path with
        | some fr => fr :: gpuDrawLoop time m total maxRibbons (fi + 1) (count + 1) rest
        | none => gpuDrawLoop time m total maxRibbons (fi + 1) count rest := rfl

/-! ## C9: degenerate and oversize ribbons are skipped, frame continues -/

/-- C9: a ribbon whose path has fewer than 2 points is not drawn; a
ribbon whose padded bounding box exceeds the 2048 × 512 scratch canvas
is not drawn; removing a short-path ribbon from a frame leaves the rest
of the frame's draws unchanged; a ribbon rejected by `drawRibbon` only
advances the rendered counter, the loop continuing over the remaining
ribbons; and in the GPU backend a short-path feeling contributes no
instance and the loop continues at the next feeling.  All the embedded
functions are total, so no exception reaches the caller. -/
theorem skip_and_continue_spec :
    (∀ w h : ℝ, ∀ seg : ℕ, ∀ t : ℝ, ∀ p : List Point,
      p.length < 2 → drawRibbon w h seg p t = none) ∧
    (∀ w h : ℝ, ∀ seg : ℕ, ∀ t : ℝ, ∀ p : List Point,
      2048 < (paddedBox w h (catmullRomSpline p seg false) t).2.2.1 ∨
        512 < (paddedBox w h (catmullRomSpline p seg false) t).2.2.2 →
      drawRibbon w h seg p t = none) ∧
    (∀ w h : ℝ, ∀ seg cap count : ℕ, ∀ l₁ l₂ : List (List Point × ℝ),
      ∀ p : List Point, ∀ t : ℝ, p.length < 2 →
      drawLoop w h seg cap count (l₁ ++ (p, t) :: l₂) =
        drawLoop w h seg cap count (l₁ ++ l₂)) ∧
    (∀ w h : ℝ, ∀ seg cap count : ℕ, ∀ p : List Point, ∀ t : ℝ,
      ∀ l₂ : List (List Point × ℝ),
      count < cap → 2 ≤ p.length →
      ¬(listMax (p.map Point.x) < -0.1 ∨ 1.1 < listMin (p.map Point.x)) →
      drawRibbon w h seg p t = none →
      drawLoop w h seg cap count ((p, t) :: l₂) =
        drawLoop w h seg cap (count + 1) l₂) ∧
    (∀ time m : ℝ, ∀ total maxRibbons fi count : ℕ, ∀ f : GpuFeeling,
      ∀ rest : List GpuFeeling, f.path.length < 2 →
      gpuRibbonStep time f.createdAt f.baseRibbonLength f.baseThickness
        f.baseSpeedVariation m total fi f.path = none ∧
      (count < maxRibbons →
        gpuDrawLoop time m total maxRibbons fi count (f :: rest) =
          gpuDrawLoop time m total maxRibbons (fi + 1) count rest)) := by
  have hshort : ∀ w h : ℝ, ∀ seg : ℕ, ∀ t : ℝ, ∀ p : List Point,
      p.length < 2 → drawRibbon w h seg p t = none := by
    intro w h seg t p hp
    simp only [drawRibbon]
    rw [if_pos hp]
  have hgpu_short : ∀ time m : ℝ, ∀ total fi : ℕ, ∀ f : GpuFeeling,
      f.path.length < 2 →
      gpuRibbonStep time f.createdAt f.baseRibbonLength f.baseThickness
        f.baseSpeedVariation m total fi f.path = none := by
    intro time m total fi f hp
    simp only [gpuRibbonStep]
    rw [if_pos hp]
  refine ⟨hshort, ?_, ?_, ?_, ?_⟩
  · intro w h seg t p hbig
    simp only [drawRibbon]
    by_cases h1 : p.length < 2
    · rw [if_pos h1]
    · rw [if_neg h1]
      by_cases h2 : (catmullRomSpline p seg false).length < 2
      · rw [if_pos h2]
      · rw [if_neg h2]
        by_cases h3 : (paddedBox w h (catmullRomSpline p seg false) t).2.2.1 ≤ 0 ∨
            (paddedBox w h (catmullRomSpline p seg false) t).2.2.2 ≤ 0
        · rw [if_pos h3]
        · rw [if_neg h3, if_pos hbig]
  · intro w h seg cap count l₁ l₂ p t hp
    induction l₁ generalizing count with
    | nil =>
      simp only [List.nil_append]
      rw [drawLoop_cons]
      by_cases hcap : cap ≤ count
      · rw [if_pos hcap, drawLoop_capped w h seg cap count l₂ hcap]
      · rw [if_neg hcap, if_neg (by omega)]
    | cons a l₁ ih =>
      obtain ⟨q, s⟩ := a
      simp only [List.cons_append]
      rw [drawLoop_cons, drawLoop_cons]
      by_cases hcap : cap ≤ count
      · rw [if_pos hcap, if_pos hcap]
      · rw [if_neg hcap, if_neg hcap]
        by_cases hlen : 2 ≤ q.length
        · rw [if_pos hlen, if_pos hlen]
          by_cases hfr : listMax (q.map Point.x) < -0.1 ∨ 1.1 < listMin (q.map Point.x)
          · rw [if_pos hfr, if_pos hfr]
            exact ih count
          · rw [if_neg hfr, if_neg hfr]
            cases hdr : drawRibbon w h seg q s with
            | some box =>
              simp only [hdr]
              rw [ih (count + 1)]
            | none =>
              simp only [hdr]
              exact ih (count + 1)
        · rw [if_neg hlen, if_neg hlen]
          exact ih count
  · intro w h seg cap count p t l₂ hcount hlen hfr hnone
    rw [drawLoop_cons, if_neg (by omega), if_pos hlen, if_neg hfr, hnone]
  · intro time m total maxRibbons fi count f rest hp
    refine ⟨hgpu_short time m total fi f hp, fun hcount => ?_⟩
    rw [gpuDrawLoop_cons, if_neg (by omega), hgpu_short time m total fi f hp]

/-- C9 witness: a one-point ribbon path yields no draw. -/
theorem skip_and_continue_spec_witness :
    drawRibbon 1920 1080 3 [⟨0.5, 0.5⟩] 20 = none :=
  skip_and_continue_spec.1 1920 1080 3 20 [⟨0.5, 0.5⟩] (by simp)

/-! ## C10: CPU/GPU backend consistency -/

/-- C10 counterexample: the two backends do not derive equal per-ribbon
values.  In a two-feeling population the CPU backend gives the newest
feeling (ascending index 1) a stagger delay of 3000 ms while the GPU
backend gives it 0 ms. -/
theorem backend_divergence_counterexample :
    cpuStaggerDelay 1 = 3000 ∧ gpuStaggerDelay 2 1 = 0 ∧
      cpuStaggerDelay 1 ≠ gpuStaggerDelay 2 1 := by
  refine ⟨by norm_num [cpuStaggerDelay], by norm_num [gpuStaggerDelay], ?_⟩
  norm_num [cpuStaggerDelay, gpuStaggerDelay]

/-- C10 (amended): the backends share `hashString` and `seededRandom`
and derive the same `baseSpeedVariation = seededRandom(hash+3, 0.85, 1.15)`
(and the same vitality, alpha and `headX` formulas, embedded here as the
shared definitions `vitalityOf`, `alphaOf`, `headXOf`), but they are NOT
output-consistent on the remaining derived values: for every hash the
GPU base ribbon length (range 0.4–0.9) is strictly below the CPU one
(range 0.5–1.2) and the GPU base thickness (16–36) strictly below the
CPU one (18–40); the stagger policies disagree (newest feeling: 3000 ms
vs 0 ms in a two-feeling population); and the wave-offset formulas
disagree (`(headTravel * 2) % 1` vs `headTravel / ribbonLength`). -/
theorem backend_consistency_spec :
    (∀ hash : ℝ, cpuBaseSpeedVariation hash = gpuBaseSpeedVariation hash) ∧
    (∀ hash : ℝ, gpuBaseRibbonLength hash < cpuBaseRibbonLength hash) ∧
    (∀ hash : ℝ, gpuBaseThickness hash < cpuBaseThickness hash) ∧
    cpuStaggerDelay 1 ≠ gpuStaggerDelay 2 1 ∧
    cpuWaveOffset 1 ≠ gpuWaveOffset 1 0.5 := by
  refine ⟨fun _ => rfl, ?_, ?_, ?_, ?_⟩
  · intro hash
    unfold gpuBaseRibbonLength cpuBaseRibbonLength seededRandom
    have h0 := Int.fract_nonneg (Real.sin hash * 10000)
    nlinarith
  · intro hash
    unfold gpuBaseThickness cpuBaseThickness seededRandom
    have h0 := Int.fract_nonneg (Real.sin (hash + 1) * 10000)
    nlinarith
  · norm_num [cpuStaggerDelay, gpuStaggerDelay]
  · have hcpu : cpuWaveOffset 1 = 0 := by
      norm_num [cpuWaveOffset, jsMod, jsTrunc]
    have hgpu : gpuWaveOffset 1 0.5 = 2 := by
      norm_num [gpuWaveOffset]
    rw [hcpu, hgpu]
    norm_num

end OurFeelings
